import Mathlib

/-! vuexr Vision: projection matrix and calibration session

A shallow embedding of `src/Vision/helpers.js` (`computeProjMat`) and of
`src/Vision/Calibration.js` (the `Calibration` class), together with the
properties the specification states about them.

Numbers are taken in exact arithmetic: a field `α` for the matrix pipeline,
`ℚ` for the calibration session.
-/

namespace Vuexr

/-! ## gl-matrix `mat4` over a heap of arrays

`mat4.mul(out, a, b)` writes into `out` while it is still reading `b`, and
`computeProjMat` calls it with `out` and `b` the same array.  Arrays are
therefore kept in a heap indexed by reference, and `mat4_mul` is the sequence
of reads and writes of the library routine. -/

/-- A sixteen-element array, the storage of a gl-matrix `mat4`. -/
abbrev Mat4 (α : Type) := Fin 16 → α

/-- The heap of `mat4` arrays: contents by reference, and the next free reference. -/
structure Heap (α : Type) where
  cells : Nat → Mat4 α
  next : Nat

/-- Read element `i` of the array at reference `r`. -/
def Heap.rd {α : Type} (h : Heap α) (r : Nat) (i : Fin 16) : α := h.cells r i

/-- Write `v` to element `i` of the array at reference `r`. -/
def Heap.wr {α : Type} (h : Heap α) (r : Nat) (i : Fin 16) (v : α) : Heap α :=
  { h with cells := Function.update h.cells r (Function.update (h.cells r) i v) }

/-- Allocate a fresh array with the given contents. -/
def Heap.alloc {α : Type} (h : Heap α) (m : Mat4 α) : Nat × Heap α :=
  (h.next, { cells := Function.update h.cells h.next m, next := h.next + 1 })

/-- The array of the 4x4 identity matrix. -/
def identity4 {α : Type} [Zero α] [One α] : Mat4 α :=
  ![1, 0, 0, 0,
    0, 1, 0, 0,
    0, 0, 1, 0,
    0, 0, 0, 1]

/-- Modelled from the spec: gl-matrix `mat4.create()`, a new identity matrix
(the library is a dependency, not part of the sources). -/
def mat4_create {α : Type} [Zero α] [One α] (h : Heap α) : Nat × Heap α :=
  h.alloc identity4

/-- Modelled from the spec: gl-matrix `mat4.fromValues(m00, ..., m33)`, a new
array holding its sixteen arguments in argument order. -/
def mat4_fromValues {α : Type} (h : Heap α)
    (m00 m01 m02 m03 m10 m11 m12 m13 m20 m21 m22 m23 m30 m31 m32 m33 : α) : Nat × Heap α :=
  h.alloc ![m00, m01, m02, m03, m10, m11, m12, m13, m20, m21, m22, m23, m30, m31, m32, m33]

/-- Modelled from the spec: gl-matrix `mat4.multiply(out, a, b)` (alias `mat4.mul`).
All of `a` is cached first; `b` is read one line of four at a time, each line
just before the four elements of `out` computed from it are written. -/
def mat4_mul {α : Type} [Add α] [Mul α] (h : Heap α) (out a b : Nat) : Heap α :=
  let a00 := h.rd a 0
  let a01 := h.rd a 1
  let a02 := h.rd a 2
  let a03 := h.rd a 3
  let a10 := h.rd a 4
  let a11 := h.rd a 5
  let a12 := h.rd a 6
  let a13 := h.rd a 7
  let a20 := h.rd a 8
  let a21 := h.rd a 9
  let a22 := h.rd a 10
  let a23 := h.rd a 11
  let a30 := h.rd a 12
  let a31 := h.rd a 13
  let a32 := h.rd a 14
  let a33 := h.rd a 15
  let b0 := h.rd b 0
  let b1 := h.rd b 1
  let b2 := h.rd b 2
  let b3 := h.rd b 3
  let h := h.wr out 0 (b0 * a00 + b1 * a10 + b2 * a20 + b3 * a30)
  let h := h.wr out 1 (b0 * a01 + b1 * a11 + b2 * a21 + b3 * a31)
  let h := h.wr out 2 (b0 * a02 + b1 * a12 + b2 * a22 + b3 * a32)
  let h := h.wr out 3 (b0 * a03 + b1 * a13 + b2 * a23 + b3 * a33)
  let b0 := h.rd b 4
  let b1 := h.rd b 5
  let b2 := h.rd b 6
  let b3 := h.rd b 7
  let h := h.wr out 4 (b0 * a00 + b1 * a10 + b2 * a20 + b3 * a30)
  let h := h.wr out 5 (b0 * a01 + b1 * a11 + b2 * a21 + b3 * a31)
  let h := h.wr out 6 (b0 * a02 + b1 * a12 + b2 * a22 + b3 * a32)
  let h := h.wr out 7 (b0 * a03 + b1 * a13 + b2 * a23 + b3 * a33)
  let b0 := h.rd b 8
  let b1 := h.rd b 9
  let b2 := h.rd b 10
  let b3 := h.rd b 11
  let h := h.wr out 8 (b0 * a00 + b1 * a10 + b2 * a20 + b3 * a30)
  let h := h.wr out 9 (b0 * a01 + b1 * a11 + b2 * a21 + b3 * a31)
  let h := h.wr out 10 (b0 * a02 + b1 * a12 + b2 * a22 + b3 * a32)
  let h := h.wr out 11 (b0 * a03 + b1 * a13 + b2 * a23 + b3 * a33)
  let b0 := h.rd b 12
  let b1 := h.rd b 13
  let b2 := h.rd b 14
  let b3 := h.rd b 15
  let h := h.wr out 12 (b0 * a00 + b1 * a10 + b2 * a20 + b3 * a30)
  let h := h.wr out 13 (b0 * a01 + b1 * a11 + b2 * a21 + b3 * a31)
  let h := h.wr out 14 (b0 * a02 + b1 * a12 + b2 * a22 + b3 * a32)
  let h := h.wr out 15 (b0 * a03 + b1 * a13 + b2 * a23 + b3 * a33)
  h

/-- The array read as a 4x4 matrix in column-major order: entry `(r, c)` is
array element `4 * c + r`. -/
def toMatrix {α : Type} (m : Mat4 α) : Matrix (Fin 4) (Fin 4) α :=
  fun r c => m ⟨4 * c.val + r.val, by omega⟩

/-! ## `helpers.js` -/

/-- Contents of `flipMat`. -/
def flipMat {α : Type} [Field α] : Mat4 α :=
  ![1, 0, 0, 0,
    0, -1, 0, 0,
    0, 0, -1, 0,
    0, 0, 0, 1]

/-- Contents of `homogeneousRotMat`. -/
def homogeneousRotMat {α : Type} [Field α] (rmat : Fin 9 → α) : Mat4 α :=
  ![rmat 0, rmat 3, rmat 6, 0,
    rmat 1, rmat 4, rmat 7, 0,
    rmat 2, rmat 5, rmat 8, 0,
    0, 0, 0, 1]

/-- Contents of `transMat`. -/
def transMat {α : Type} [Field α] (tvec : Fin 3 → α) : Mat4 α :=
  ![1, 0, 0, 0,
    0, 1, 0, 0,
    0, 0, 1, 0,
    tvec 0, tvec 1, tvec 2, 1]

/-- Contents of `perspMat`, with `focalLength = cameraMatrix[0]`. -/
def perspMat {α : Type} [Field α] (cameraMatrix : Fin 9 → α) : Mat4 α :=
  let focalLength := cameraMatrix 0
  ![1, 0, 0, 0,
    0, 1, 0, 0,
    0, 0, 1, 1 / focalLength,
    0, 0, 0, 0]

/-- Contents of `scaleMat`. -/
def scaleMat {α : Type} [Field α] ( ratio : α) (cameraMatrix : Fin 9 → α) : Mat4 α :=
  ![ ratio, 0, 0, 0,
    0, ratio, 0, 0,
    0, 0, ratio, 0,
    cameraMatrix 2 * ratio, cameraMatrix 5 * ratio, 0, 1]

/-- The heap after `computeProjMat` has run, with the reference of `projMat`.
The caller's `viewMatrix` array sits at reference 0 of the initial heap and
every array the function creates gets a fresh reference; the other arguments
are only read, element by element. -/
def computeProjMatHeap {α : Type} [Field α] ( ratio : α) (cameraMatrix rmat : Fin 9 → α)
    (tvec : Fin 3 → α) (viewMatrix : Mat4 α) : Nat × Heap α :=
  let h : Heap α := { cells := fun _ => viewMatrix, next := 1 }
  let viewRef := 0
  let (projMat, h) := mat4_create h
  let (flipRef, h) := mat4_fromValues h
    1 0 0 0
    0 (-1) 0 0
    0 0 (-1) 0
    0 0 0 1
  let (rotRef, h) := mat4_fromValues h
    (rmat 0) (rmat 3) (rmat 6) 0
    (rmat 1) (rmat 4) (rmat 7) 0
    (rmat 2) (rmat 5) (rmat 8) 0
    0 0 0 1
  let h := mat4_mul h projMat rotRef flipRef
  let (transRef, h) := mat4_fromValues h
    1 0 0 0
    0 1 0 0
    0 0 1 0
    (tvec 0) (tvec 1) (tvec 2) 1
  let h := mat4_mul h projMat transRef projMat
  let h := mat4_mul h projMat viewRef projMat
  let focalLength := cameraMatrix 0
  let (perspRef, h) := mat4_fromValues h
    1 0 0 0
    0 1 0 0
    0 0 1 (1 / focalLength)
    0 0 0 0
  let h := mat4_mul h projMat perspRef projMat
  let (scaleRef, h) := mat4_fromValues h
    ratio 0 0 0
    0 ratio 0 0
    0 0 ratio 0
    (cameraMatrix 2 * ratio) (cameraMatrix 5 * ratio) 0 1
  let h := mat4_mul h projMat scaleRef projMat
  (projMat, h)

/-- The array `computeProjMat` returns. -/
def computeProjMat {α : Type} [Field α] ( ratio : α) (cameraMatrix rmat : Fin 9 → α)
    (tvec : Fin 3 → α) (viewMatrix : Mat4 α) : Mat4 α :=
  let res := computeProjMatHeap ratio cameraMatrix rmat tvec viewMatrix
  res.2.cells res.1

/-- The 3x3 matrix whose row-major array is `rmat`. -/
def rot3 {α : Type} (rmat : Fin 9 → α) : Matrix (Fin 3) (Fin 3) α :=
  fun i j => rmat ⟨3 * i.val + j.val, by omega⟩

/-- The camera-frame point `R * (x, -y, -z) + tvec` of an object point `(x, y, z)`. -/
def cameraPoint {α : Type} [Field α] (rmat : Fin 9 → α) (tvec : Fin 3 → α) (x y z : α) :
    Fin 3 → α :=
  Matrix.mulVec (rot3 rmat) ![x, -y, -z] + tvec

/-- A sample camera matrix: focal length 2, principal point (3, 5). -/
def cameraMatrixSample : Fin 9 → ℚ := ![2, 0, 3, 0, 2, 5, 0, 0, 1]

/-- The row-major array of the 3x3 identity rotation. -/
def rmatIdentity {α : Type} [Zero α] [One α] : Fin 9 → α := ![1, 0, 0, 0, 1, 0, 0, 0, 1]

/-- A sample rotation array (a quarter turn about the z axis). -/
def rmatSample : Fin 9 → ℚ := ![0, -1, 0, 1, 0, 0, 0, 0, 1]

/-! ## OpenCV values and the browser store -/

/-- Element types of the `cv.Mat` values the class creates. -/
inductive MatType where
  | CV_64FC1
  | CV_32FC3
  | other
deriving DecidableEq

/-- Modelled from the spec: a `cv.Mat` of the vendored OpenCV build, as its
shape, element type and flat numeric contents. -/
structure Mat where
  rows : Nat
  cols : Nat
  type : MatType
  data : List ℚ
deriving DecidableEq

/-- Modelled from the spec: `cv.matFromArray(rows, cols, type, array)`, a matrix
of the given shape holding `array`; it is only called with an array that fills
the shape. -/
def matFromArray (rows cols : Nat) (type : MatType) (array : List ℚ) : Mat :=
  { rows := rows, cols := cols, type := type, data := array }

/-- The object literal `calibration` that is written to and read from the store. -/
structure CalibrationRecord where
  cameraMatrix : List ℚ
  distCoeffs : List ℚ
deriving DecidableEq

/-- Modelled from the spec: the text `JSON.stringify` produces; serialisation is
taken to be lossless, so the text is identified with the record it encodes. -/
structure JsonText where
  record : CalibrationRecord
deriving DecidableEq

/-- Modelled from the spec: `JSON.stringify`, lossless. -/
def JSON_stringify (calibration : CalibrationRecord) : JsonText := { record := calibration }

/-- Modelled from the spec: `JSON.parse`, the inverse of `JSON_stringify`. -/
def JSON_parse (text : JsonText) : CalibrationRecord := text.record

/-- Modelled from the spec: `window.localStorage`, a map from keys to stored
texts; `none` is the `null` that `getItem` returns for an absent key. -/
abbrev LocalStorage := String → Option JsonText

/-- Modelled from the spec: `localStorage.getItem(key)`. -/
def LocalStorage.getItem (ls : LocalStorage) (key : String) : Option JsonText := ls key

/-- Modelled from the spec: `localStorage.setItem(key, value)`. -/
def LocalStorage.setItem (ls : LocalStorage) (key : String) (value : JsonText) : LocalStorage :=
  fun k => if k = key then some value else ls k

/-- A video frame, as far as the class touches it: the circles drawn on it. -/
structure Frame where
  circles : List (ℚ × ℚ)
deriving DecidableEq

/-- An image size passed to the solver. -/
structure Size where
  width : Nat
  height : Nat
deriving DecidableEq

/-- Modelled from the spec: the external solver `cv.calibrateCameraExtended`,
reduced to the two outputs the class keeps: from the object-point samples, the
image-point samples and the image size, a camera matrix and distortion
coefficients.  The result is `none` when the solver raises instead of
returning, as the vendored routine does when it is given no sample or a
degenerate configuration. -/
abbrev Solver := List Mat → List Mat → Size → Option (Mat × Mat)

/-! ## `Calibration.js` -/

/-- Board pitch in millimetres. -/
def CHESSBOARD_PITCH : ℚ := 25

/-- Inner corners per board row. -/
def CHESSBOARD_WIDTH : Nat := 9

/-- Inner corners per board column. -/
def CHESSBOARD_HEIGHT : Nat := 6

/-- Fields of a `Calibration` instance.  `cameraMatrix` and `distCoeffs` are
`none` for `null`; `captureNextCalibrationPoints` is `none` while the property
is still undefined. -/
structure Calibration where
  chessboardPoints : Mat
  calibrationImagePoints : List Mat
  calibrationObjectPoints : List Mat
  cameraMatrix : Option Mat
  distCoeffs : Option Mat
  name : String
  captureNextCalibrationPoints : Option Bool
deriving DecidableEq

/-- JavaScript truthiness of the capture flag: `undefined` and `false` are falsy. -/
def truthy (flag : Option Bool) : Bool := flag = some true

/-- The store key of a profile, the name followed by `/calibration`. -/
def calibrationKey (name : String) : String := name ++ "/calibration"

/-- The array `points` built by the two nested loops of
`constructChessboardCoordinates`. -/
def chessboardPointsArray : List ℚ :=
  (List.range CHESSBOARD_HEIGHT).foldl
    (fun points j =>
      (List.range CHESSBOARD_WIDTH).foldl
        (fun points i =>
          ((points ++ [CHESSBOARD_PITCH * (i : ℚ)]) ++ [CHESSBOARD_PITCH * (j : ℚ)]) ++ [0])
        points)
    []

/-- The value `constructChessboardCoordinates` assigns to `this.chessboardPoints`. -/
def constructChessboardCoordinates : Mat :=
  matFromArray (CHESSBOARD_WIDTH * CHESSBOARD_HEIGHT) 1 MatType.CV_32FC3 chessboardPointsArray

/-- Method `removeCalibrationData`.  The result is `none` when the call throws:
`cameraMatrix` is set and `distCoeffs` is `null`. -/
def removeCalibrationData (self : Calibration) : Option (Bool × Calibration) :=
  match self.cameraMatrix with
  | some _ =>
    match self.distCoeffs with
    | some _ => some (true, { self with cameraMatrix := none, distCoeffs := none })
    | none => none
  | none => some (false, self)

/-- Method `loadCalibrationData`. -/
def loadCalibrationData (self : Calibration) (ls : LocalStorage) : Option (Bool × Calibration) :=
  match ls.getItem (calibrationKey self.name) with
  | some text =>
    let calibration := JSON_parse text
    match removeCalibrationData self with
    | some (_, self) =>
      some (true,
        { self with
          cameraMatrix := some (matFromArray 3 3 MatType.CV_64FC1 calibration.cameraMatrix)
          distCoeffs := some (matFromArray 5 1 MatType.CV_64FC1 calibration.distCoeffs) })
    | none => none
  | none => some (false, self)

/-- Method `storeCalibrationData`.  The result is `none` when the call throws:
`cameraMatrix` is set and `distCoeffs` is `null`. -/
def storeCalibrationData (self : Calibration) (ls : LocalStorage) :
    Option (Bool × LocalStorage) :=
  match self.cameraMatrix with
  | some cameraMatrix =>
    match self.distCoeffs with
    | some distCoeffs =>
      let calibration : CalibrationRecord :=
        { cameraMatrix := cameraMatrix.data, distCoeffs := distCoeffs.data }
      some (true, ls.setItem (calibrationKey self.name) (JSON_stringify calibration))
    | none => none
  | none => some (false, ls)

/-- The constructor of `Calibration`, run against the store `ls`. -/
def Calibration.new (name : String) (ls : LocalStorage) : Option Calibration :=
  let self : Calibration :=
    { chessboardPoints := constructChessboardCoordinates
      calibrationImagePoints := []
      calibrationObjectPoints := []
      cameraMatrix := none
      distCoeffs := none
      name := name
      captureNextCalibrationPoints := none }
  match loadCalibrationData self ls with
  | some (_, self) => some self
  | none => none

/-- Method `captureCalibrationPoints`: both vectors get one more entry at the end. -/
def captureCalibrationPoints (self : Calibration) (imagePoints objectPoints : Mat) :
    Calibration :=
  { self with
    calibrationImagePoints := self.calibrationImagePoints ++ [imagePoints]
    calibrationObjectPoints := self.calibrationObjectPoints ++ [objectPoints] }

/-- Method `setCaptureNextcalibrationPoints`. -/
def setCaptureNextcalibrationPoints (self : Calibration) : Calibration :=
  { self with captureNextCalibrationPoints := some true }

/-- The highlighting loop of `findChessBoardCorners`: one circle per row of
`corners`, centred at the two floats of that row. -/
def highlightCorners (frame : Frame) (corners : Mat) : Frame :=
  (List.range corners.rows).foldl
    (fun frame i =>
      let x := corners.data.getD (2 * i) 0
      let y := corners.data.getD (2 * i + 1) 0
      { frame with circles := frame.circles ++ [(x, y)] })
    frame

/-- Method `findChessBoardCorners`.  The external detector's outcome on the
frame is given by `success` and by the contents `corners` it produced. -/
def findChessBoardCorners (self : Calibration) (frame : Frame) (highlight : Bool)
    (success : Bool) (corners : Mat) : Calibration × Frame :=
  if success then
    let frame := if highlight then highlightCorners frame corners else frame
    if truthy self.captureNextCalibrationPoints then
      let self := captureCalibrationPoints self corners self.chessboardPoints
      ({ self with captureNextCalibrationPoints := some false }, frame)
    else
      (self, frame)
  else
    (self, frame)

/-- Method `calibrate`, against the store `ls` and the external solver.  The
result carries the instance and the store as the call leaves them, and the
returned pair; the last component is `none` when the call throws.  An
exception of the solver leaves the method before any field is assigned. -/
def calibrate (self : Calibration) (ls : LocalStorage) (solver : Solver) (size : Size) :
    Calibration × LocalStorage × Option (Mat × Mat) :=
  match solver self.calibrationObjectPoints self.calibrationImagePoints size with
  | none => (self, ls, none)
  | some (cameraMatrix, distCoeffs) =>
    let self := { self with cameraMatrix := some cameraMatrix, distCoeffs := some distCoeffs }
    match storeCalibrationData self ls with
    | some (_, ls) => (self, ls, some (cameraMatrix, distCoeffs))
    | none => (self, ls, none)

/-- One call on a session: arm, process a frame, or calibrate. -/
inductive Op where
  | arm
  | detect (frame : Frame) (highlight : Bool) (success : Bool) (corners : Mat)
  | solve (solver : Solver) (size : Size)

/-- The effect of one call on the instance and the store; a call that throws
leaves them as they are at the throw. -/
def step (s : Calibration × LocalStorage) : Op → Calibration × LocalStorage
  | Op.arm => (setCaptureNextcalibrationPoints s.1, s.2)
  | Op.detect frame highlight success corners =>
    ((findChessBoardCorners s.1 frame highlight success corners).1, s.2)
  | Op.solve solver size =>
    ((calibrate s.1 s.2 solver size).1, (calibrate s.1 s.2 solver size).2.1)

/-- The effect of a sequence of calls. -/
def run (s : Calibration × LocalStorage) : List Op → Calibration × LocalStorage
  | [] => s
  | op :: ops => run (step s op) ops

/-- The store with nothing in it. -/
def emptyStorage : LocalStorage := fun _ => none

/-- A sample set of detected corners. -/
def cornersSample : Mat := { rows := 2, cols := 1, type := MatType.other, data := [1, 2, 3, 4] }

/-- Another sample set of detected corners. -/
def cornersSample2 : Mat := { rows := 1, cols := 1, type := MatType.other, data := [5, 6] }

/-- A sample camera matrix as a `cv.Mat`. -/
def cameraMatSample : Mat := matFromArray 3 3 MatType.CV_64FC1 [2, 0, 3, 0, 2, 5, 0, 0, 1]

/-- Sample distortion coefficients as a `cv.Mat`. -/
def distCoeffsSample : Mat := matFromArray 5 1 MatType.CV_64FC1 [1, 2, 3, 4, 5]

/-- A sample session holding intrinsics and no captured sample. -/
def sessionSample : Calibration :=
  { chessboardPoints := constructChessboardCoordinates
    calibrationImagePoints := []
    calibrationObjectPoints := []
    cameraMatrix := some cameraMatSample
    distCoeffs := some distCoeffsSample
    name := "default_camera"
    captureNextCalibrationPoints := none }

/-- The corners of one detected board: 54 image points, two floats each. -/
def cornersBoard : Mat :=
  { rows := 54
    cols := 1
    type := MatType.other
    data := (List.range 54).flatMap
      (fun k => [100 + 30 * ((k % 9 : Nat) : ℚ), 100 + 30 * ((k / 9 : Nat) : ℚ)]) }

/-- Distortion coefficients in the 1x5 shape the solver hands back. -/
def distCoeffsRow : Mat :=
  { rows := 1, cols := 5, type := MatType.CV_64FC1, data := [1, 2, 3, 4, 5] }

/-- A session as `calibrate` leaves it: a 3x3 camera matrix and 1x5 distortion
coefficients, one captured sample. -/
def sessionCalibrated : Calibration :=
  { chessboardPoints := constructChessboardCoordinates
    calibrationImagePoints := [cornersBoard]
    calibrationObjectPoints := [constructChessboardCoordinates]
    cameraMatrix := some cameraMatSample
    distCoeffs := some distCoeffsRow
    name := "default_camera"
    captureNextCalibrationPoints := some false }

/-- A store that holds a calibration for the profile `default_camera`. -/
def storageSample : LocalStorage :=
  emptyStorage.setItem "default_camera/calibration"
    (JSON_stringify { cameraMatrix := [2, 0, 3, 0, 2, 5, 0, 0, 1], distCoeffs := [1, 2, 3, 4, 5] })

/-- The session the constructor builds from `storageSample`. -/
def sessionLoaded : Calibration :=
  { chessboardPoints := constructChessboardCoordinates
    calibrationImagePoints := []
    calibrationObjectPoints := []
    cameraMatrix := some cameraMatSample
    distCoeffs := some distCoeffsSample
    name := "default_camera"
    captureNextCalibrationPoints := none }

/-- The session `sessionLoaded` after one armed capture of `cornersBoard`. -/
def sessionOneSample : Calibration :=
  { chessboardPoints := constructChessboardCoordinates
    calibrationImagePoints := [cornersBoard]
    calibrationObjectPoints := [constructChessboardCoordinates]
    cameraMatrix := some cameraMatSample
    distCoeffs := some distCoeffsSample
    name := "default_camera"
    captureNextCalibrationPoints := some false }

/-- A solver that raises when it is given no sample and otherwise answers with
a fixed camera matrix and 1x5 distortion coefficients. -/
def solverSample : Solver :=
  fun objectPoints _ _ =>
    match objectPoints with
    | [] => none
    | _ :: _ =>
      some (matFromArray 3 3 MatType.CV_64FC1 [7, 0, 1, 0, 7, 1, 0, 0, 1],
        { rows := 1, cols := 5, type := MatType.CV_64FC1, data := [0, 0, 0, 0, 0] })

/-- The sample vectors stay paired with the fixed template under every call. -/
def samplesPaired (c : Calibration) : Prop :=
  c.chessboardPoints = constructChessboardCoordinates ∧
  c.calibrationImagePoints.length = c.calibrationObjectPoints.length ∧
  ∀ m ∈ c.calibrationObjectPoints, m = constructChessboardCoordinates

/-! ## Lemmas on `mat4_mul` -/

theorem Heap.rd_wr {α : Type} (h : Heap α) (r r' : Nat) (i i' : Fin 16) (v : α) :
    (h.wr r i v).rd r' i' = if r' = r ∧ i' = i then v else h.rd r' i' := by
  unfold Heap.wr Heap.rd
  by_cases hr : r' = r
  · subst hr
    by_cases hi : i' = i
    · subst hi; simp
    · simp [hi]
  · simp [hr, Function.update_noteq hr]

theorem mat4_mul_next {α : Type} [Add α] [Mul α] (h : Heap α) (out a b : Nat) :
    (mat4_mul h out a b).next = h.next := rfl

/-- The routine `mat4_mul` writes to no array but `out`. -/
theorem mat4_mul_cells_ne {α : Type} [Add α] [Mul α] (h : Heap α) (out a b r : Nat)
    (hr : r ≠ out) : (mat4_mul h out a b).cells r = h.cells r := by
  funext i
  change (mat4_mul h out a b).rd r i = h.rd r i
  unfold mat4_mul
  simp only [Heap.rd_wr, hr, false_and, if_false]

set_option maxHeartbeats 1000000 in
/-- Whatever the aliasing between `out`, `a` and `b`, the array `out` ends up
holding the matrix product of the initial contents of `a` and `b`. -/
theorem mat4_mul_cells_out {α : Type} [CommRing α] (h : Heap α) (out a b : Nat) :
    toMatrix ((mat4_mul h out a b).cells out) = toMatrix (h.cells a) * toMatrix (h.cells b) := by
  ext r c
  fin_cases r <;> fin_cases c <;>
  · simp only [Matrix.mul_apply, Fin.sum_univ_four, toMatrix, Fin.val_zero, Fin.val_one,
      Fin.val_two, Fin.coe_ofNat_eq_mod, Fin.zero_eta, Fin.mk_one, Nat.reduceMod, Nat.reduceMul,
      Nat.reduceAdd, Fin.reduceFinMk, Fin.isValue, Fin.val_mk]
    change (mat4_mul h out a b).rd out _ = _
    unfold mat4_mul
    simp only [Heap.rd_wr, true_and, Fin.reduceEq, and_false, if_false, if_true, and_true,
      eq_self_iff_true, ite_self]
    simp only [Heap.rd]
    ring

/-- The six-fold product computed by `computeProjMat`, right-nested. -/
theorem computeProjMat_toMatrix {α : Type} [Field α] ( ratio : α) (cameraMatrix rmat : Fin 9 → α)
    (tvec : Fin 3 → α) (viewMatrix : Mat4 α) :
    toMatrix (computeProjMat ratio cameraMatrix rmat tvec viewMatrix) =
      toMatrix (scaleMat ratio cameraMatrix) * (toMatrix (perspMat cameraMatrix) *
        (toMatrix viewMatrix * (toMatrix (transMat tvec) *
          (toMatrix (homogeneousRotMat rmat) * toMatrix flipMat)))) := by
  simp [computeProjMat, computeProjMatHeap, mat4_create, mat4_fromValues, Heap.alloc,
    mat4_mul_next, mat4_mul_cells_out, mat4_mul_cells_ne, Function.update_apply, scaleMat, identity4,
    perspMat, transMat, homogeneousRotMat, flipMat]

/-! ## Evaluation lemmas for array literals -/

@[simp]
theorem vec16_0 {α : Type} (a0 a1 a2 a3 a4 a5 a6 a7 a8 a9 a10 a11 a12 a13 a14 a15 : α) :
    (![a0, a1, a2, a3, a4, a5, a6, a7, a8, a9, a10, a11, a12, a13, a14, a15] : Fin 16 → α) 0 = a0 := rfl

@[simp]
theorem vec16_1 {α : Type} (a0 a1 a2 a3 a4 a5 a6 a7 a8 a9 a10 a11 a12 a13 a14 a15 : α) :
    (![a0, a1, a2, a3, a4, a5, a6, a7, a8, a9, a10, a11, a12, a13, a14, a15] : Fin 16 → α) 1 = a1 := rfl

@[simp]
theorem vec16_2 {α : Type} (a0 a1 a2 a3 a4 a5 a6 a7 a8 a9 a10 a11 a12 a13 a14 a15 : α) :
    (![a0, a1, a2, a3, a4, a5, a6, a7, a8, a9, a10, a11, a12, a13, a14, a15] : Fin 16 → α) 2 = a2 := rfl

@[simp]
theorem vec16_3 {α : Type} (a0 a1 a2 a3 a4 a5 a6 a7 a8 a9 a10 a11 a12 a13 a14 a15 : α) :
    (![a0, a1, a2, a3, a4, a5, a6, a7, a8, a9, a10, a11, a12, a13, a14, a15] : Fin 16 → α) 3 = a3 := rfl

@[simp]
theorem vec16_4 {α : Type} (a0 a1 a2 a3 a4 a5 a6 a7 a8 a9 a10 a11 a12 a13 a14 a15 : α) :
    (![a0, a1, a2, a3, a4, a5, a6, a7, a8, a9, a10, a11, a12, a13, a14, a15] : Fin 16 → α) 4 = a4 := rfl

@[simp]
theorem vec16_5 {α : Type} (a0 a1 a2 a3 a4 a5 a6 a7 a8 a9 a10 a11 a12 a13 a14 a15 : α) :
    (![a0, a1, a2, a3, a4, a5, a6, a7, a8, a9, a10, a11, a12, a13, a14, a15] : Fin 16 → α) 5 = a5 := rfl

@[simp]
theorem vec16_6 {α : Type} (a0 a1 a2 a3 a4 a5 a6 a7 a8 a9 a10 a11 a12 a13 a14 a15 : α) :
    (![a0, a1, a2, a3, a4, a5, a6, a7, a8, a9, a10, a11, a12, a13, a14, a15] : Fin 16 → α) 6 = a6 := rfl

@[simp]
theorem vec16_7 {α : Type} (a0 a1 a2 a3 a4 a5 a6 a7 a8 a9 a10 a11 a12 a13 a14 a15 : α) :
    (![a0, a1, a2, a3, a4, a5, a6, a7, a8, a9, a10, a11, a12, a13, a14, a15] : Fin 16 → α) 7 = a7 := rfl

@[simp]
theorem vec16_8 {α : Type} (a0 a1 a2 a3 a4 a5 a6 a7 a8 a9 a10 a11 a12 a13 a14 a15 : α) :
    (![a0, a1, a2, a3, a4, a5, a6, a7, a8, a9, a10, a11, a12, a13, a14, a15] : Fin 16 → α) 8 = a8 := rfl

@[simp]
theorem vec16_9 {α : Type} (a0 a1 a2 a3 a4 a5 a6 a7 a8 a9 a10 a11 a12 a13 a14 a15 : α) :
    (![a0, a1, a2, a3, a4, a5, a6, a7, a8, a9, a10, a11, a12, a13, a14, a15] : Fin 16 → α) 9 = a9 := rfl

@[simp]
theorem vec16_10 {α : Type} (a0 a1 a2 a3 a4 a5 a6 a7 a8 a9 a10 a11 a12 a13 a14 a15 : α) :
    (![a0, a1, a2, a3, a4, a5, a6, a7, a8, a9, a10, a11, a12, a13, a14, a15] : Fin 16 → α) 10 = a10 := rfl

@[simp]
theorem vec16_11 {α : Type} (a0 a1 a2 a3 a4 a5 a6 a7 a8 a9 a10 a11 a12 a13 a14 a15 : α) :
    (![a0, a1, a2, a3, a4, a5, a6, a7, a8, a9, a10, a11, a12, a13, a14, a15] : Fin 16 → α) 11 = a11 := rfl

@[simp]
theorem vec16_12 {α : Type} (a0 a1 a2 a3 a4 a5 a6 a7 a8 a9 a10 a11 a12 a13 a14 a15 : α) :
    (![a0, a1, a2, a3, a4, a5, a6, a7, a8, a9, a10, a11, a12, a13, a14, a15] : Fin 16 → α) 12 = a12 := rfl

@[simp]
theorem vec16_13 {α : Type} (a0 a1 a2 a3 a4 a5 a6 a7 a8 a9 a10 a11 a12 a13 a14 a15 : α) :
    (![a0, a1, a2, a3, a4, a5, a6, a7, a8, a9, a10, a11, a12, a13, a14, a15] : Fin 16 → α) 13 = a13 := rfl

@[simp]
theorem vec16_14 {α : Type} (a0 a1 a2 a3 a4 a5 a6 a7 a8 a9 a10 a11 a12 a13 a14 a15 : α) :
    (![a0, a1, a2, a3, a4, a5, a6, a7, a8, a9, a10, a11, a12, a13, a14, a15] : Fin 16 → α) 14 = a14 := rfl

@[simp]
theorem vec16_15 {α : Type} (a0 a1 a2 a3 a4 a5 a6 a7 a8 a9 a10 a11 a12 a13 a14 a15 : α) :
    (![a0, a1, a2, a3, a4, a5, a6, a7, a8, a9, a10, a11, a12, a13, a14, a15] : Fin 16 → α) 15 = a15 := rfl

@[simp]
theorem vec9_0 {α : Type} (a0 a1 a2 a3 a4 a5 a6 a7 a8 : α) :
    (![a0, a1, a2, a3, a4, a5, a6, a7, a8] : Fin 9 → α) 0 = a0 := rfl

@[simp]
theorem vec9_1 {α : Type} (a0 a1 a2 a3 a4 a5 a6 a7 a8 : α) :
    (![a0, a1, a2, a3, a4, a5, a6, a7, a8] : Fin 9 → α) 1 = a1 := rfl

@[simp]
theorem vec9_2 {α : Type} (a0 a1 a2 a3 a4 a5 a6 a7 a8 : α) :
    (![a0, a1, a2, a3, a4, a5, a6, a7, a8] : Fin 9 → α) 2 = a2 := rfl

@[simp]
theorem vec9_3 {α : Type} (a0 a1 a2 a3 a4 a5 a6 a7 a8 : α) :
    (![a0, a1, a2, a3, a4, a5, a6, a7, a8] : Fin 9 → α) 3 = a3 := rfl

@[simp]
theorem vec9_4 {α : Type} (a0 a1 a2 a3 a4 a5 a6 a7 a8 : α) :
    (![a0, a1, a2, a3, a4, a5, a6, a7, a8] : Fin 9 → α) 4 = a4 := rfl

@[simp]
theorem vec9_5 {α : Type} (a0 a1 a2 a3 a4 a5 a6 a7 a8 : α) :
    (![a0, a1, a2, a3, a4, a5, a6, a7, a8] : Fin 9 → α) 5 = a5 := rfl

@[simp]
theorem vec9_6 {α : Type} (a0 a1 a2 a3 a4 a5 a6 a7 a8 : α) :
    (![a0, a1, a2, a3, a4, a5, a6, a7, a8] : Fin 9 → α) 6 = a6 := rfl

@[simp]
theorem vec9_7 {α : Type} (a0 a1 a2 a3 a4 a5 a6 a7 a8 : α) :
    (![a0, a1, a2, a3, a4, a5, a6, a7, a8] : Fin 9 → α) 7 = a7 := rfl

@[simp]
theorem vec9_8 {α : Type} (a0 a1 a2 a3 a4 a5 a6 a7 a8 : α) :
    (![a0, a1, a2, a3, a4, a5, a6, a7, a8] : Fin 9 → α) 8 = a8 := rfl

@[simp]
theorem toMatrix_0_0 {α : Type} (m : Mat4 α) : toMatrix m 0 0 = m 0 := rfl

@[simp]
theorem toMatrix_0_1 {α : Type} (m : Mat4 α) : toMatrix m 0 1 = m 4 := rfl

@[simp]
theorem toMatrix_0_2 {α : Type} (m : Mat4 α) : toMatrix m 0 2 = m 8 := rfl

@[simp]
theorem toMatrix_0_3 {α : Type} (m : Mat4 α) : toMatrix m 0 3 = m 12 := rfl

@[simp]
theorem toMatrix_1_0 {α : Type} (m : Mat4 α) : toMatrix m 1 0 = m 1 := rfl

@[simp]
theorem toMatrix_1_1 {α : Type} (m : Mat4 α) : toMatrix m 1 1 = m 5 := rfl

@[simp]
theorem toMatrix_1_2 {α : Type} (m : Mat4 α) : toMatrix m 1 2 = m 9 := rfl

@[simp]
theorem toMatrix_1_3 {α : Type} (m : Mat4 α) : toMatrix m 1 3 = m 13 := rfl

@[simp]
theorem toMatrix_2_0 {α : Type} (m : Mat4 α) : toMatrix m 2 0 = m 2 := rfl

@[simp]
theorem toMatrix_2_1 {α : Type} (m : Mat4 α) : toMatrix m 2 1 = m 6 := rfl

@[simp]
theorem toMatrix_2_2 {α : Type} (m : Mat4 α) : toMatrix m 2 2 = m 10 := rfl

@[simp]
theorem toMatrix_2_3 {α : Type} (m : Mat4 α) : toMatrix m 2 3 = m 14 := rfl

@[simp]
theorem toMatrix_3_0 {α : Type} (m : Mat4 α) : toMatrix m 3 0 = m 3 := rfl

@[simp]
theorem toMatrix_3_1 {α : Type} (m : Mat4 α) : toMatrix m 3 1 = m 7 := rfl

@[simp]
theorem toMatrix_3_2 {α : Type} (m : Mat4 α) : toMatrix m 3 2 = m 11 := rfl

@[simp]
theorem toMatrix_3_3 {α : Type} (m : Mat4 α) : toMatrix m 3 3 = m 15 := rfl

/-! ## Properties of `computeProjMat` -/

theorem apply_eq_toMatrix {α : Type} (m : Mat4 α) (i : Fin 16) :
    m i = toMatrix m ⟨i.val % 4, Nat.mod_lt _ (by decide)⟩ ⟨i.val / 4, by omega⟩ := by
  fin_cases i <;> rfl

/-- The array returned when rotation, translation and view are all trivial. -/
theorem computeProjMat_identity_pose {α : Type} [Field α] ( ratio : α) (cameraMatrix : Fin 9 → α) :
    computeProjMat ratio cameraMatrix rmatIdentity ![0, 0, 0] identity4 =
      ![ ratio, 0, 0, 0,
        0, - ratio, 0, 0,
        -(cameraMatrix 2 * ratio * (1 / cameraMatrix 0)),
        -(cameraMatrix 5 * ratio * (1 / cameraMatrix 0)), - ratio, -(1 / cameraMatrix 0),
        0, 0, 0, 0] := by
  funext i
  rw [apply_eq_toMatrix (computeProjMat _ _ _ _ _) i, computeProjMat_toMatrix]
  fin_cases i <;>
    simp [Matrix.mul_apply, Fin.sum_univ_four, scaleMat, perspMat, transMat,
      homogeneousRotMat, flipMat, identity4, rmatIdentity]

/-- The array `perspMat` is what `computeProjMat` leaves in the fifth array it allocates. -/
theorem computeProjMatHeap_persp {α : Type} [Field α] ( ratio : α) (cameraMatrix rmat : Fin 9 → α)
    (tvec : Fin 3 → α) (viewMatrix : Mat4 α) :
    (computeProjMatHeap ratio cameraMatrix rmat tvec viewMatrix).2.cells 5 =
      perspMat cameraMatrix := by
  simp [computeProjMatHeap, mat4_create, mat4_fromValues, Heap.alloc, mat4_mul_next,
    mat4_mul_cells_ne, Function.update_apply, perspMat]

/-- C1. The matrix returned by `computeProjMat`, read column-major, is the
product scale x persp x viewMatrix x trans4 x rot4 x flip in that order, where
flip is diag(1,-1,-1,1), rot4 is the homogeneous embedding of the row-major
rotation `rmat`, and trans4 is the identity with `tvec` in array positions 12..14;
the in-place calls of `mat4.mul` give the plain matrix product. -/
theorem computeProjMat_composition {α : Type} [Field α] ( ratio : α)
    (cameraMatrix rmat : Fin 9 → α) (tvec : Fin 3 → α) (viewMatrix : Mat4 α) :
    toMatrix (computeProjMat ratio cameraMatrix rmat tvec viewMatrix) =
        toMatrix (scaleMat ratio cameraMatrix) * toMatrix (perspMat cameraMatrix) *
          toMatrix viewMatrix * toMatrix (transMat tvec) *
          toMatrix (homogeneousRotMat rmat) * toMatrix flipMat
      ∧ toMatrix (flipMat : Mat4 α) = Matrix.diagonal ![1, -1, -1, 1]
      ∧ toMatrix (homogeneousRotMat rmat) =
          !![rmat 0, rmat 1, rmat 2, 0;
             rmat 3, rmat 4, rmat 5, 0;
             rmat 6, rmat 7, rmat 8, 0;
             0, 0, 0, 1]
      ∧ (transMat tvec 12 = tvec 0 ∧ transMat tvec 13 = tvec 1 ∧ transMat tvec 14 = tvec 2
          ∧ ∀ i : Fin 16, i ≠ 12 → i ≠ 13 → i ≠ 14 → transMat tvec i = identity4 i) := by
  refine ⟨?_, ?_, ?_, ?_, ?_, ?_, ?_⟩
  · rw [computeProjMat_toMatrix]
    simp only [Matrix.mul_assoc]
  · ext r c
    fin_cases r <;> fin_cases c <;> simp [flipMat, Matrix.diagonal]
  · ext r c
    fin_cases r <;> fin_cases c <;> simp [homogeneousRotMat]
  · simp [transMat]
  · simp [transMat]
  · simp [transMat]
  · intro i h12 h13 h14
    fin_cases i <;> simp_all [transMat, identity4]

/-- C2 (as stated, refuted). With focal length 2, principal point (3, 5),
ratio 7 and trivial pose and view, elements 12..15 are (0, 0, 0, 0), not
(21, 35, 0, 1), and element 11 is -1/2, not 1/2. -/
theorem computeProjMat_identity_check_fails :
    cameraMatrixSample 0 ≠ 0 ∧
    computeProjMat 7 cameraMatrixSample rmatIdentity ![0, 0, 0] identity4 12
      ≠ cameraMatrixSample 2 * 7 ∧
    computeProjMat 7 cameraMatrixSample rmatIdentity ![0, 0, 0] identity4 13
      ≠ cameraMatrixSample 5 * 7 ∧
    computeProjMat 7 cameraMatrixSample rmatIdentity ![0, 0, 0] identity4 15 ≠ 1 ∧
    computeProjMat 7 cameraMatrixSample rmatIdentity ![0, 0, 0] identity4 11
      ≠ 1 / cameraMatrixSample 0 := by
  rw [computeProjMat_identity_pose]
  simp only [vec16_11, vec16_12, vec16_13, vec16_15, cameraMatrixSample, vec9_0, vec9_2, vec9_5]
  norm_num

/-- C2 (amended). With identity rotation, zero translation, identity view and
non-zero focal length f, array elements 12..15 of the result are (0, 0, 0, 0),
element 11 is -1/f, and the principal point enters elements 8 and 9 as
-(cx*r)/f and -(cy*r)/f. -/
theorem computeProjMat_identity_check {α : Type} [Field α] ( ratio : α)
    (cameraMatrix : Fin 9 → α) (_hf : cameraMatrix 0 ≠ 0) :
    computeProjMat ratio cameraMatrix rmatIdentity ![0, 0, 0] identity4 12 = 0 ∧
    computeProjMat ratio cameraMatrix rmatIdentity ![0, 0, 0] identity4 13 = 0 ∧
    computeProjMat ratio cameraMatrix rmatIdentity ![0, 0, 0] identity4 14 = 0 ∧
    computeProjMat ratio cameraMatrix rmatIdentity ![0, 0, 0] identity4 15 = 0 ∧
    computeProjMat ratio cameraMatrix rmatIdentity ![0, 0, 0] identity4 11
      = -(1 / cameraMatrix 0) ∧
    computeProjMat ratio cameraMatrix rmatIdentity ![0, 0, 0] identity4 8
      = -(cameraMatrix 2 * ratio / cameraMatrix 0) ∧
    computeProjMat ratio cameraMatrix rmatIdentity ![0, 0, 0] identity4 9
      = -(cameraMatrix 5 * ratio / cameraMatrix 0) := by
  rw [computeProjMat_identity_pose]
  refine ⟨by simp, by simp, by simp, by simp, by simp, ?_, ?_⟩ <;>
  · simp only [vec16_8, vec16_9]
    ring

/-- Witness of `computeProjMat_identity_check` at focal length 2, principal
point (3, 5) and ratio 7. -/
theorem computeProjMat_identity_check_witness :
    cameraMatrixSample 0 ≠ 0 ∧
    computeProjMat 7 cameraMatrixSample rmatIdentity ![0, 0, 0] identity4 12 = 0 ∧
    computeProjMat 7 cameraMatrixSample rmatIdentity ![0, 0, 0] identity4 13 = 0 ∧
    computeProjMat 7 cameraMatrixSample rmatIdentity ![0, 0, 0] identity4 14 = 0 ∧
    computeProjMat 7 cameraMatrixSample rmatIdentity ![0, 0, 0] identity4 15 = 0 ∧
    computeProjMat 7 cameraMatrixSample rmatIdentity ![0, 0, 0] identity4 11
      = -(1 / cameraMatrixSample 0) ∧
    computeProjMat 7 cameraMatrixSample rmatIdentity ![0, 0, 0] identity4 8
      = -(cameraMatrixSample 2 * 7 / cameraMatrixSample 0) ∧
    computeProjMat 7 cameraMatrixSample rmatIdentity ![0, 0, 0] identity4 9
      = -(cameraMatrixSample 5 * 7 / cameraMatrixSample 0) :=
  ⟨by norm_num [cameraMatrixSample],
    computeProjMat_identity_check 7 cameraMatrixSample (by norm_num [cameraMatrixSample])⟩

/-- C8 (as stated, refuted). With focal length 2 the array `perspMat` differs from
the identity at element 15 as well, where it holds 0 instead of 1. -/
theorem perspMat_single_entry_fails :
    cameraMatrixSample 0 ≠ 0 ∧ (15 : Fin 16) ≠ 11 ∧
    perspMat cameraMatrixSample 15 = 0 ∧ (identity4 : Mat4 ℚ) 15 = 1 ∧
    perspMat cameraMatrixSample 15 ≠ (identity4 : Mat4 ℚ) 15 := by
  refine ⟨by norm_num [cameraMatrixSample], by decide, ?_, ?_, ?_⟩ <;>
    simp [perspMat, identity4]

/-- C8 (amended). For non-zero focal length f = cameraMatrix[0], the perspective
array that `computeProjMat` builds differs from the identity in exactly two
elements: element 11, which is 1/f, and element 15, which is 0. -/
theorem perspMat_entries {α : Type} [Field α] ( ratio : α) (cameraMatrix rmat : Fin 9 → α)
    (tvec : Fin 3 → α) (viewMatrix : Mat4 α) (hf : cameraMatrix 0 ≠ 0) :
    (computeProjMatHeap ratio cameraMatrix rmat tvec viewMatrix).2.cells 5
        = perspMat cameraMatrix ∧
    perspMat cameraMatrix 11 = 1 / cameraMatrix 0 ∧
    perspMat cameraMatrix 15 = 0 ∧
    ∀ i : Fin 16, perspMat cameraMatrix i ≠ identity4 i ↔ (i = 11 ∨ i = 15) := by
  refine ⟨computeProjMatHeap_persp _ _ _ _ _, by simp [perspMat], by simp [perspMat], ?_⟩
  intro i
  fin_cases i <;> simp [perspMat, identity4, hf]

/-- Witness of `perspMat_entries` at focal length 2. -/
theorem perspMat_entries_witness :
    cameraMatrixSample 0 ≠ 0 ∧
    ((computeProjMatHeap 7 cameraMatrixSample rmatSample ![1, 2, 3] identity4).2.cells 5
        = perspMat cameraMatrixSample ∧
    perspMat cameraMatrixSample 11 = 1 / cameraMatrixSample 0 ∧
    perspMat cameraMatrixSample 15 = 0 ∧
    ∀ i : Fin 16, perspMat cameraMatrixSample i ≠ identity4 i ↔ (i = 11 ∨ i = 15)) :=
  ⟨by norm_num [cameraMatrixSample],
    perspMat_entries 7 cameraMatrixSample rmatSample ![1, 2, 3] identity4
      (by norm_num [cameraMatrixSample])⟩

/-- The perspective divide in the pinhole model. -/
theorem pinhole_div {α : Type} [Field α] (r f c q0 q2 : α) (hf : f ≠ 0) (hq : q2 ≠ 0) :
    r * (q0 + c * q2 / f) / (q2 / f) = r * (f * q0 / q2 + c) := by
  rw [div_eq_iff (div_ne_zero hq hf)]
  have h1 : f * q0 / q2 * (q2 / f) = q0 := by field_simp
  calc r * (q0 + c * q2 / f) = r * (f * q0 / q2 * (q2 / f) + c * q2 / f) := by rw [h1]
    _ = r * (f * q0 / q2 + c) * (q2 / f) := by ring

/-- C9. Pinhole projection. With the identity view and non-zero focal length f,
the result M maps an object point (x, y, z, 1) to (X, Y, Z, W) with
W = q_z / f, X = r * (q_x + cx * q_z / f), Y = r * (q_y + cy * q_z / f),
Z = r * q_z, where q = R * (x, -y, -z) + tvec; hence for q_z non-zero
X / W = r * (f * q_x / q_z + cx) and Y / W = r * (f * q_y / q_z + cy). -/
theorem computeProjMat_pinhole {α : Type} [Field α] ( ratio : α)
    (cameraMatrix rmat : Fin 9 → α) (tvec : Fin 3 → α) (x y z : α)
    (hf : cameraMatrix 0 ≠ 0) :
    Matrix.mulVec (toMatrix (computeProjMat ratio cameraMatrix rmat tvec identity4))
        ![x, y, z, 1] =
      ![ ratio * (cameraPoint rmat tvec x y z 0
            + cameraMatrix 2 * cameraPoint rmat tvec x y z 2 / cameraMatrix 0),
        ratio * (cameraPoint rmat tvec x y z 1
            + cameraMatrix 5 * cameraPoint rmat tvec x y z 2 / cameraMatrix 0),
        ratio * cameraPoint rmat tvec x y z 2,
        cameraPoint rmat tvec x y z 2 / cameraMatrix 0] ∧
    (cameraPoint rmat tvec x y z 2 ≠ 0 →
      Matrix.mulVec (toMatrix (computeProjMat ratio cameraMatrix rmat tvec identity4))
          ![x, y, z, 1] 0 /
        Matrix.mulVec (toMatrix (computeProjMat ratio cameraMatrix rmat tvec identity4))
          ![x, y, z, 1] 3 =
        ratio * (cameraMatrix 0 * cameraPoint rmat tvec x y z 0 / cameraPoint rmat tvec x y z 2
          + cameraMatrix 2) ∧
      Matrix.mulVec (toMatrix (computeProjMat ratio cameraMatrix rmat tvec identity4))
          ![x, y, z, 1] 1 /
        Matrix.mulVec (toMatrix (computeProjMat ratio cameraMatrix rmat tvec identity4))
          ![x, y, z, 1] 3 =
        ratio * (cameraMatrix 0 * cameraPoint rmat tvec x y z 1 / cameraPoint rmat tvec x y z 2
          + cameraMatrix 5)) := by
  have key : Matrix.mulVec (toMatrix (computeProjMat ratio cameraMatrix rmat tvec identity4))
        ![x, y, z, 1] =
      ![ ratio * (cameraPoint rmat tvec x y z 0
            + cameraMatrix 2 * cameraPoint rmat tvec x y z 2 / cameraMatrix 0),
        ratio * (cameraPoint rmat tvec x y z 1
            + cameraMatrix 5 * cameraPoint rmat tvec x y z 2 / cameraMatrix 0),
        ratio * cameraPoint rmat tvec x y z 2,
        cameraPoint rmat tvec x y z 2 / cameraMatrix 0] := by
    rw [computeProjMat_toMatrix]
    funext i
    fin_cases i <;>
    · simp [Matrix.mulVec, Matrix.dotProduct, Matrix.mul_apply, Fin.sum_univ_four,
        Fin.sum_univ_three, scaleMat, perspMat, transMat, homogeneousRotMat, flipMat,
        identity4, cameraPoint, rot3]
      try ring
  refine ⟨key, ?_⟩
  intro hq
  rw [key]
  simp only [Matrix.cons_val_zero, Matrix.cons_val_one, Matrix.head_cons, Matrix.cons_val_three,
    Matrix.tail_cons]
  exact ⟨pinhole_div _ _ _ _ _ hf hq, pinhole_div _ _ _ _ _ hf hq⟩

/-- Witness of `computeProjMat_pinhole` at focal length 2, principal point
(3, 5), a quarter-turn rotation, translation (1, 2, 3), ratio 7 and the object
point (1, 1, 1). -/
theorem computeProjMat_pinhole_witness :
    cameraMatrixSample 0 ≠ 0 ∧ cameraPoint rmatSample ![1, 2, 3] 1 1 1 2 ≠ 0 ∧
    Matrix.mulVec (toMatrix (computeProjMat 7 cameraMatrixSample rmatSample ![1, 2, 3] identity4))
        ![1, 1, 1, 1] 0 /
      Matrix.mulVec (toMatrix (computeProjMat 7 cameraMatrixSample rmatSample ![1, 2, 3] identity4))
        ![1, 1, 1, 1] 3 =
      7 * (cameraMatrixSample 0 * cameraPoint rmatSample ![1, 2, 3] 1 1 1 0
        / cameraPoint rmatSample ![1, 2, 3] 1 1 1 2 + cameraMatrixSample 2) :=
  ⟨by norm_num [cameraMatrixSample],
    by simp [cameraPoint, rot3, rmatSample, Matrix.mulVec, Matrix.dotProduct, Fin.sum_univ_three]; norm_num,
    ((computeProjMat_pinhole 7 cameraMatrixSample rmatSample ![1, 2, 3] 1 1 1
      (by norm_num [cameraMatrixSample])).2
      (by simp [cameraPoint, rot3, rmatSample, Matrix.mulVec, Matrix.dotProduct, Fin.sum_univ_three]; norm_num)).1⟩

/-! ## Properties of the calibration session -/

theorem chessboardPointsArray_eq :
    chessboardPointsArray =
      (List.range 54).flatMap (fun k => [25 * ((k % 9 : Nat) : ℚ), 25 * ((k / 9 : Nat) : ℚ), 0]) := by
  simp [chessboardPointsArray, CHESSBOARD_HEIGHT, CHESSBOARD_WIDTH, CHESSBOARD_PITCH,
    List.range, List.range.loop, List.flatMap]

/-- The constructor never throws, and starts with no sample and an undefined flag. -/
theorem Calibration.new_spec (name : String) (ls : LocalStorage) :
    ∃ c, Calibration.new name ls = some c ∧ c.chessboardPoints = constructChessboardCoordinates ∧
      c.calibrationImagePoints = [] ∧ c.calibrationObjectPoints = [] ∧ c.name = name ∧
      c.captureNextCalibrationPoints = none := by
  unfold Calibration.new loadCalibrationData
  cases h : LocalStorage.getItem ls (calibrationKey name) <;>
    simp [h, removeCalibrationData]

/-- When the solver returns, `calibrate` returns too: it overwrites the
intrinsics with the solver's outputs and stores them. -/
theorem calibrate_of_some (self : Calibration) (ls : LocalStorage) (solver : Solver) (size : Size)
    (cameraMatrix distCoeffs : Mat)
    (h : solver self.calibrationObjectPoints self.calibrationImagePoints size
      = some (cameraMatrix, distCoeffs)) :
    calibrate self ls solver size =
      ({ self with cameraMatrix := some cameraMatrix, distCoeffs := some distCoeffs },
        ls.setItem (calibrationKey self.name)
          (JSON_stringify { cameraMatrix := cameraMatrix.data, distCoeffs := distCoeffs.data }),
        some (cameraMatrix, distCoeffs)) := by
  simp [calibrate, storeCalibrationData, h]

/-- When the solver raises, `calibrate` throws and changes nothing. -/
theorem calibrate_of_none (self : Calibration) (ls : LocalStorage) (solver : Solver) (size : Size)
    (h : solver self.calibrationObjectPoints self.calibrationImagePoints size = none) :
    calibrate self ls solver size = (self, ls, none) := by
  simp [calibrate, h]

/-- The instance after `findChessBoardCorners`: a capture happens exactly when
the detection succeeds and the flag is truthy. -/
theorem findChessBoardCorners_fst (self : Calibration) (frame : Frame) (highlight success : Bool)
    (corners : Mat) :
    (findChessBoardCorners self frame highlight success corners).1 =
      if success = true ∧ self.captureNextCalibrationPoints = some true then
        { self with
          calibrationImagePoints := self.calibrationImagePoints ++ [corners]
          calibrationObjectPoints := self.calibrationObjectPoints ++ [self.chessboardPoints]
          captureNextCalibrationPoints := some false }
      else self := by
  unfold findChessBoardCorners truthy captureCalibrationPoints
  by_cases hs : success = true <;>
    by_cases hc : self.captureNextCalibrationPoints = some true <;> simp [hs, hc]

theorem calibrate_samplesPaired (self : Calibration) (ls : LocalStorage) (solver : Solver)
    (size : Size) (h : samplesPaired self) : samplesPaired (calibrate self ls solver size).1 := by
  cases hs : solver self.calibrationObjectPoints self.calibrationImagePoints size with
  | none => rw [calibrate_of_none self ls solver size hs]; exact h
  | some out =>
    obtain ⟨cm, dc⟩ := out
    rw [calibrate_of_some self ls solver size cm dc hs]
    exact h

theorem step_samplesPaired (s : Calibration × LocalStorage) (op : Op) (h : samplesPaired s.1) :
    samplesPaired (step s op).1 := by
  cases op with
  | arm => exact h
  | detect frame highlight success corners =>
    obtain ⟨h1, h2, h3⟩ := h
    simp only [step, findChessBoardCorners_fst]
    split_ifs
    · refine ⟨h1, ?_, ?_⟩
      · simp [h2]
      · intro m hm
        simp only [List.mem_append, List.mem_singleton] at hm
        rcases hm with hm | hm
        · exact h3 m hm
        · rw [hm, h1]
    · exact ⟨h1, h2, h3⟩
  | solve solver size => exact calibrate_samplesPaired s.1 s.2 solver size h

theorem run_samplesPaired (ops : List Op) :
    ∀ s : Calibration × LocalStorage, samplesPaired s.1 → samplesPaired (run s ops).1 := by
  induction ops with
  | nil => intro s h; exact h
  | cons op ops ih =>
    intro s h
    exact ih (step s op) (step_samplesPaired s op h)

/-- C3. After arming, a call whose detection succeeds appends exactly one
(image-points, object-points) pair at the end of the sample sequences and
clears the flag; a second successful detection without re-arming changes
neither sequence; from the constructor's state the count is then 1. -/
theorem capture_once (self : Calibration) (frame frame2 : Frame) (highlight highlight2 : Bool)
    (corners corners2 : Mat) :
    ((findChessBoardCorners (setCaptureNextcalibrationPoints self)
        frame highlight true corners).1.calibrationImagePoints
        = self.calibrationImagePoints ++ [corners]
      ∧ (findChessBoardCorners (setCaptureNextcalibrationPoints self)
        frame highlight true corners).1.calibrationObjectPoints
        = self.calibrationObjectPoints ++ [self.chessboardPoints]
      ∧ (findChessBoardCorners (setCaptureNextcalibrationPoints self)
        frame highlight true corners).1.calibrationImagePoints.length
        = self.calibrationImagePoints.length + 1
      ∧ (findChessBoardCorners (setCaptureNextcalibrationPoints self)
        frame highlight true corners).1.captureNextCalibrationPoints = some false)
    ∧ ((findChessBoardCorners
          (findChessBoardCorners (setCaptureNextcalibrationPoints self)
            frame highlight true corners).1
          frame2 highlight2 true corners2).1
        = (findChessBoardCorners (setCaptureNextcalibrationPoints self)
            frame highlight true corners).1)
    ∧ (∀ (name : String) (ls : LocalStorage), ∃ c, Calibration.new name ls = some c ∧
        (findChessBoardCorners (setCaptureNextcalibrationPoints c)
          frame highlight true corners).1.calibrationImagePoints.length = 1 ∧
        (findChessBoardCorners (setCaptureNextcalibrationPoints c)
          frame highlight true corners).1.calibrationObjectPoints.length = 1 ∧
        (findChessBoardCorners
          (findChessBoardCorners (setCaptureNextcalibrationPoints c)
            frame highlight true corners).1
          frame2 highlight2 true corners2).1.calibrationImagePoints.length = 1) := by
  refine ⟨?_, ?_, ?_⟩
  · simp [findChessBoardCorners_fst, setCaptureNextcalibrationPoints]
  · simp [findChessBoardCorners_fst, setCaptureNextcalibrationPoints]
  · intro name ls
    obtain ⟨c, hc, -, hi, ho, -, -⟩ := Calibration.new_spec name ls
    exact ⟨c, hc, by simp [findChessBoardCorners_fst, setCaptureNextcalibrationPoints, hi, ho]⟩

/-- C4. Round trip. For a session holding intrinsics I, a camera matrix of 9
values and 5 distortion coefficients of whatever matrix shape,
`storeCalibrationData` returns true and writes only the key made of the name
and `/calibration`; `loadCalibrationData` on the same name then returns true
and leaves the session holding a 3x3 camera matrix and 5x1 distortion
coefficients whose values are those of I, element for element, with every
other field as before; a new session of that name starts with the same values. -/
theorem store_load_roundtrip (self : Calibration) (ls : LocalStorage) (cameraMatrix distCoeffs : Mat)
    (_h9 : cameraMatrix.data.length = 9) (_h5 : distCoeffs.data.length = 5)
    (hcm : self.cameraMatrix = some cameraMatrix) (hdc : self.distCoeffs = some distCoeffs) :
    ∃ ls' c', storeCalibrationData self ls = some (true, ls')
      ∧ ls' (self.name ++ "/calibration") = some (JSON_stringify
          { cameraMatrix := cameraMatrix.data, distCoeffs := distCoeffs.data })
      ∧ (∀ k, k ≠ self.name ++ "/calibration" → ls' k = ls k)
      ∧ loadCalibrationData self ls' = some (true, c')
      ∧ c'.cameraMatrix = some (matFromArray 3 3 MatType.CV_64FC1 cameraMatrix.data)
      ∧ c'.distCoeffs = some (matFromArray 5 1 MatType.CV_64FC1 distCoeffs.data)
      ∧ Option.map Mat.data c'.cameraMatrix = some cameraMatrix.data
      ∧ Option.map Mat.data c'.distCoeffs = some distCoeffs.data
      ∧ (∀ i : Fin 9, (Option.map Mat.data c'.cameraMatrix).bind (fun d => d[i.val]?)
          = cameraMatrix.data[i.val]?)
      ∧ (∀ i : Fin 5, (Option.map Mat.data c'.distCoeffs).bind (fun d => d[i.val]?)
          = distCoeffs.data[i.val]?)
      ∧ c'.calibrationImagePoints = self.calibrationImagePoints
      ∧ c'.calibrationObjectPoints = self.calibrationObjectPoints
      ∧ c'.chessboardPoints = self.chessboardPoints
      ∧ c'.name = self.name
      ∧ c'.captureNextCalibrationPoints = self.captureNextCalibrationPoints
      ∧ ∃ c, Calibration.new self.name ls' = some c
        ∧ Option.map Mat.data c.cameraMatrix = some cameraMatrix.data
        ∧ Option.map Mat.data c.distCoeffs = some distCoeffs.data := by
  refine ⟨ls.setItem (calibrationKey self.name)
      (JSON_stringify { cameraMatrix := cameraMatrix.data, distCoeffs := distCoeffs.data }),
    { self with
      cameraMatrix := some (matFromArray 3 3 MatType.CV_64FC1 cameraMatrix.data)
      distCoeffs := some (matFromArray 5 1 MatType.CV_64FC1 distCoeffs.data) },
    ?_, ?_, ?_, ?_, rfl, rfl, rfl, rfl, ?_, ?_, rfl, rfl, rfl, rfl, rfl, ?_⟩
  · simp [storeCalibrationData, hcm, hdc]
  · simp [LocalStorage.setItem, calibrationKey]
  · intro k hk
    simp [LocalStorage.setItem, calibrationKey, hk]
  · simp [loadCalibrationData, removeCalibrationData, LocalStorage.getItem,
      LocalStorage.setItem, JSON_parse, JSON_stringify, hcm, hdc]
  · intro i
    simp [matFromArray]
  · intro i
    simp [matFromArray]
  · simp [Calibration.new, loadCalibrationData, removeCalibrationData, LocalStorage.getItem,
      LocalStorage.setItem, JSON_parse, JSON_stringify, matFromArray]

/-- Witness of `store_load_roundtrip` at a session that holds 1x5 distortion
coefficients, against the empty store. -/
theorem store_load_roundtrip_witness :
    ∃ ls' c', storeCalibrationData sessionCalibrated emptyStorage = some (true, ls')
      ∧ ls' (sessionCalibrated.name ++ "/calibration") = some (JSON_stringify
          { cameraMatrix := cameraMatSample.data, distCoeffs := distCoeffsRow.data })
      ∧ (∀ k, k ≠ sessionCalibrated.name ++ "/calibration" → ls' k = emptyStorage k)
      ∧ loadCalibrationData sessionCalibrated ls' = some (true, c')
      ∧ c'.cameraMatrix = some (matFromArray 3 3 MatType.CV_64FC1 cameraMatSample.data)
      ∧ c'.distCoeffs = some (matFromArray 5 1 MatType.CV_64FC1 distCoeffsRow.data)
      ∧ Option.map Mat.data c'.cameraMatrix = some cameraMatSample.data
      ∧ Option.map Mat.data c'.distCoeffs = some distCoeffsRow.data
      ∧ (∀ i : Fin 9, (Option.map Mat.data c'.cameraMatrix).bind (fun d => d[i.val]?)
          = cameraMatSample.data[i.val]?)
      ∧ (∀ i : Fin 5, (Option.map Mat.data c'.distCoeffs).bind (fun d => d[i.val]?)
          = distCoeffsRow.data[i.val]?)
      ∧ c'.calibrationImagePoints = sessionCalibrated.calibrationImagePoints
      ∧ c'.calibrationObjectPoints = sessionCalibrated.calibrationObjectPoints
      ∧ c'.chessboardPoints = sessionCalibrated.chessboardPoints
      ∧ c'.name = sessionCalibrated.name
      ∧ c'.captureNextCalibrationPoints = sessionCalibrated.captureNextCalibrationPoints
      ∧ ∃ c, Calibration.new sessionCalibrated.name ls' = some c
        ∧ Option.map Mat.data c.cameraMatrix = some cameraMatSample.data
        ∧ Option.map Mat.data c.distCoeffs = some distCoeffsRow.data :=
  store_load_roundtrip sessionCalibrated emptyStorage cameraMatSample distCoeffsRow
    rfl rfl rfl rfl

/-- C5 (as stated, refuted). The session built from a store that holds a
calibration, after one armed capture, has one sample, fewer than any minimum
of two or more.  With a solver that returns on it, `calibrate` does not fail:
it returns the solver's pair, replaces both intrinsics and overwrites the
stored calibration. -/
theorem calibrate_one_sample_overwrites :
    Calibration.new "default_camera" storageSample = some sessionLoaded
    ∧ (findChessBoardCorners (setCaptureNextcalibrationPoints sessionLoaded) ⟨[]⟩ false true
        cornersBoard).1 = sessionOneSample
    ∧ sessionOneSample.calibrationImagePoints.length = 1
    ∧ (calibrate sessionOneSample storageSample solverSample ⟨640, 480⟩).2.2
        = some (matFromArray 3 3 MatType.CV_64FC1 [7, 0, 1, 0, 7, 1, 0, 0, 1],
            { rows := 1, cols := 5, type := MatType.CV_64FC1, data := [0, 0, 0, 0, 0] })
    ∧ (calibrate sessionOneSample storageSample solverSample ⟨640, 480⟩).1.cameraMatrix
        ≠ sessionOneSample.cameraMatrix
    ∧ (calibrate sessionOneSample storageSample solverSample ⟨640, 480⟩).1.distCoeffs
        ≠ sessionOneSample.distCoeffs
    ∧ (calibrate sessionOneSample storageSample solverSample ⟨640, 480⟩).2.1
          "default_camera/calibration"
        ≠ storageSample "default_camera/calibration" := by
  have hc := calibrate_of_some sessionOneSample storageSample solverSample ⟨640, 480⟩
    (matFromArray 3 3 MatType.CV_64FC1 [7, 0, 1, 0, 7, 1, 0, 0, 1])
    { rows := 1, cols := 5, type := MatType.CV_64FC1, data := [0, 0, 0, 0, 0] } rfl
  rw [hc]
  refine ⟨?_, ?_, rfl, rfl, ?_, ?_, ?_⟩
  · simp [Calibration.new, loadCalibrationData, removeCalibrationData, LocalStorage.getItem,
      LocalStorage.setItem, storageSample, emptyStorage, calibrationKey, JSON_parse,
      JSON_stringify, sessionLoaded, cameraMatSample, distCoeffsSample]
  · simp [findChessBoardCorners_fst, setCaptureNextcalibrationPoints, sessionLoaded,
      sessionOneSample]
  · simp [sessionOneSample, cameraMatSample, matFromArray]
  · simp [sessionOneSample, distCoeffsSample, matFromArray]
  · simp [LocalStorage.setItem, calibrationKey, sessionOneSample, storageSample, emptyStorage,
      JSON_stringify, matFromArray]

/-- C5 (amended). Method `calibrate` has no minimum-sample check and no
`InsufficientSamples` failure of its own; it always calls the solver on the
accumulated sequences.  If the solver raises, the call throws and the instance
and the store are unchanged.  If the solver returns, whatever the number of
samples, the call returns the solver's pair, replaces the held intrinsics by
it, stores it under the profile's key and no other, and leaves the samples,
the template and the capture flag as they were. -/
theorem calibrate_follows_solver (self : Calibration) (ls : LocalStorage) (solver : Solver)
    (size : Size) :
    (solver self.calibrationObjectPoints self.calibrationImagePoints size = none →
      calibrate self ls solver size = (self, ls, none))
    ∧ (∀ cameraMatrix distCoeffs : Mat,
        solver self.calibrationObjectPoints self.calibrationImagePoints size
          = some (cameraMatrix, distCoeffs) →
        (calibrate self ls solver size).2.2 = some (cameraMatrix, distCoeffs)
        ∧ (calibrate self ls solver size).1.cameraMatrix = some cameraMatrix
        ∧ (calibrate self ls solver size).1.distCoeffs = some distCoeffs
        ∧ (calibrate self ls solver size).2.1 (self.name ++ "/calibration")
            = some (JSON_stringify
                { cameraMatrix := cameraMatrix.data, distCoeffs := distCoeffs.data })
        ∧ (∀ k, k ≠ self.name ++ "/calibration" →
            (calibrate self ls solver size).2.1 k = ls k)
        ∧ (calibrate self ls solver size).1.calibrationImagePoints
            = self.calibrationImagePoints
        ∧ (calibrate self ls solver size).1.calibrationObjectPoints
            = self.calibrationObjectPoints
        ∧ (calibrate self ls solver size).1.chessboardPoints = self.chessboardPoints
        ∧ (calibrate self ls solver size).1.captureNextCalibrationPoints
            = self.captureNextCalibrationPoints) := by
  refine ⟨calibrate_of_none self ls solver size, ?_⟩
  intro cameraMatrix distCoeffs h
  rw [calibrate_of_some self ls solver size cameraMatrix distCoeffs h]
  refine ⟨rfl, rfl, rfl, ?_, ?_, rfl, rfl, rfl, rfl⟩
  · simp [LocalStorage.setItem, calibrationKey]
  · intro k hk
    simp [LocalStorage.setItem, calibrationKey, hk]

/-- Witness of `calibrate_follows_solver`: with no sample the sample solver
raises and nothing changes; with one sample it returns and the intrinsics are
replaced. -/
theorem calibrate_follows_solver_witness :
    calibrate sessionLoaded storageSample solverSample ⟨640, 480⟩
        = (sessionLoaded, storageSample, none)
    ∧ (calibrate sessionOneSample storageSample solverSample ⟨640, 480⟩).1.cameraMatrix
        = some (matFromArray 3 3 MatType.CV_64FC1 [7, 0, 1, 0, 7, 1, 0, 0, 1]) :=
  ⟨(calibrate_follows_solver sessionLoaded storageSample solverSample ⟨640, 480⟩).1 rfl,
    ((calibrate_follows_solver sessionOneSample storageSample solverSample ⟨640, 480⟩).2
      (matFromArray 3 3 MatType.CV_64FC1 [7, 0, 1, 0, 7, 1, 0, 0, 1])
      { rows := 1, cols := 5, type := MatType.CV_64FC1, data := [0, 0, 0, 0, 0] } rfl).2.1⟩

theorem length_blocks (a b c : Nat → ℚ) (n : Nat) :
    ((List.range n).flatMap (fun k => [a k, b k, c k])).length = 3 * n := by
  induction n with
  | zero => rfl
  | succ n ih =>
    rw [List.range_succ, List.flatMap_append, List.length_append, ih]
    simp [List.flatMap]
    omega

/-- Point `k` of a flat list of triples sits at indices `3 * k`, `3 * k + 1`, `3 * k + 2`. -/
theorem getElem_blocks (a b c : Nat → ℚ) (n k : Nat) (hk : k < n) :
    ((List.range n).flatMap (fun k => [a k, b k, c k]))[3 * k]? = some (a k) ∧
    ((List.range n).flatMap (fun k => [a k, b k, c k]))[3 * k + 1]? = some (b k) ∧
    ((List.range n).flatMap (fun k => [a k, b k, c k]))[3 * k + 2]? = some (c k) := by
  induction n with
  | zero => omega
  | succ n ih =>
    rw [List.range_succ, List.flatMap_append]
    by_cases h : k < n
    · have hl := length_blocks a b c n
      rw [List.getElem?_append_left (by omega), List.getElem?_append_left (by omega),
        List.getElem?_append_left (by omega)]
      exact ih h
    · have hkn : k = n := by omega
      subst hkn
      have hl := length_blocks a b c k
      rw [List.getElem?_append_right (by omega), List.getElem?_append_right (by omega),
        List.getElem?_append_right (by omega), hl]
      have e0 : 3 * k - 3 * k = 0 := by omega
      have e1 : 3 * k + 1 - 3 * k = 1 := by omega
      have e2 : 3 * k + 2 - 3 * k = 2 := by omega
      rw [e0, e1, e2]
      simp [List.flatMap]

/-- C6. The template has 54 rows and a flat data array of 162 numbers; point k
(for k below 54) is (25 * (k mod 9), 25 * (k div 9), 0), that is, the point at
index 9 * j + i for row j below 6 and column i below 9 is
(pitch * i, pitch * j, 0). -/
theorem chessboard_template :
    constructChessboardCoordinates.rows = 54 ∧
    constructChessboardCoordinates.data.length = 162 ∧
    (∀ k : Fin 54,
      constructChessboardCoordinates.data[3 * k.val]? = some (25 * ((k.val % 9 : Nat) : ℚ)) ∧
      constructChessboardCoordinates.data[3 * k.val + 1]? = some (25 * ((k.val / 9 : Nat) : ℚ)) ∧
      constructChessboardCoordinates.data[3 * k.val + 2]? = some 0) ∧
    (∀ (j : Fin 6) (i : Fin 9),
      constructChessboardCoordinates.data[3 * (9 * j.val + i.val)]?
        = some (CHESSBOARD_PITCH * (i.val : ℚ)) ∧
      constructChessboardCoordinates.data[3 * (9 * j.val + i.val) + 1]?
        = some (CHESSBOARD_PITCH * (j.val : ℚ)) ∧
      constructChessboardCoordinates.data[3 * (9 * j.val + i.val) + 2]? = some 0) := by
  have hd : constructChessboardCoordinates.data = chessboardPointsArray := rfl
  rw [hd, chessboardPointsArray_eq]
  refine ⟨rfl, length_blocks _ _ _ 54, ?_, ?_⟩
  · intro k
    exact getElem_blocks (fun k => 25 * ((k % 9 : Nat) : ℚ)) (fun k => 25 * ((k / 9 : Nat) : ℚ))
      (fun _ => 0) 54 k.val k.isLt
  · intro j i
    have hlt : 9 * j.val + i.val < 54 := by omega
    have hmod : (9 * j.val + i.val) % 9 = i.val := by omega
    have hdiv : (9 * j.val + i.val) / 9 = j.val := by omega
    have h := getElem_blocks (fun k => 25 * ((k % 9 : Nat) : ℚ))
      (fun k => 25 * ((k / 9 : Nat) : ℚ)) (fun _ => 0) 54 (9 * j.val + i.val) hlt
    simp only [hmod, hdiv] at h
    exact h

/-- C7. If the capture flag is not set or the detector reports no chessboard,
`findChessBoardCorners` leaves the instance (both sample sequences and the
flag) unchanged; if the flag was set before a call and is not set after it,
the detection succeeded and one sample was appended; a failed detection while
armed keeps the flag set. -/
theorem findChessBoardCorners_frame (self : Calibration) (frame : Frame)
    (highlight success : Bool) (corners : Mat) :
    ((truthy self.captureNextCalibrationPoints = false ∨ success = false) →
      (findChessBoardCorners self frame highlight success corners).1 = self)
    ∧ (truthy self.captureNextCalibrationPoints = true →
        truthy (findChessBoardCorners self frame highlight success
          corners).1.captureNextCalibrationPoints = false →
        success = true ∧
        (findChessBoardCorners self frame highlight success corners).1.calibrationImagePoints
          = self.calibrationImagePoints ++ [corners] ∧
        (findChessBoardCorners self frame highlight success corners).1.calibrationObjectPoints
          = self.calibrationObjectPoints ++ [self.chessboardPoints])
    ∧ (truthy self.captureNextCalibrationPoints = true → success = false →
        truthy (findChessBoardCorners self frame highlight success
          corners).1.captureNextCalibrationPoints = true) := by
  rw [findChessBoardCorners_fst]
  refine ⟨?_, ?_, ?_⟩
  · rintro (h | h)
    · have : self.captureNextCalibrationPoints ≠ some true := by simpa [truthy] using h
      simp [this]
    · simp [h]
  · intro ha hb
    have ha' : self.captureNextCalibrationPoints = some true := by simpa [truthy] using ha
    cases success
    · simp [ha] at hb
    · simp [ha']
  · intro ha hs
    simp [hs, ha]

/-- Witness of `findChessBoardCorners_frame`: an unarmed session is left as it
is by a successful detection, and an armed one stays armed when detection fails. -/
theorem findChessBoardCorners_frame_witness :
    (findChessBoardCorners sessionSample ⟨[]⟩ true true cornersSample).1 = sessionSample
    ∧ truthy (findChessBoardCorners (setCaptureNextcalibrationPoints sessionSample) ⟨[]⟩ true
        false cornersSample).1.captureNextCalibrationPoints = true :=
  ⟨(findChessBoardCorners_frame sessionSample ⟨[]⟩ true true cornersSample).1 (Or.inl rfl),
    (findChessBoardCorners_frame (setCaptureNextcalibrationPoints sessionSample) ⟨[]⟩ true
      false cornersSample).2.2 rfl rfl⟩

/-- C10. From the constructor, after every sequence of arm, frame-processing
and calibrate calls (with any detector outcome and any solver, returning or
raising), the image-point and object-point sequences have the same length and
every object-point entry is the template computed in the constructor. -/
theorem samples_paired_invariant (name : String) (ls : LocalStorage) (ops : List Op) :
    ∃ c0, Calibration.new name ls = some c0 ∧
      (run (c0, ls) ops).1.calibrationImagePoints.length
        = (run (c0, ls) ops).1.calibrationObjectPoints.length ∧
      (run (c0, ls) ops).1.chessboardPoints = c0.chessboardPoints ∧
      ∀ m ∈ (run (c0, ls) ops).1.calibrationObjectPoints, m = c0.chessboardPoints := by
  obtain ⟨c0, hc0, hcb, hi, ho, -, -⟩ := Calibration.new_spec name ls
  have hp : samplesPaired (c0, ls).1 := ⟨hcb, by simp [hi, ho], by simp [ho]⟩
  obtain ⟨h1, h2, h3⟩ := run_samplesPaired ops (c0, ls) hp
  exact ⟨c0, hc0, h2, by rw [h1, hcb], by rw [hcb]; exact h3⟩

end Vuexr
